import Mathlib

/-!
Shallow embedding of the cloudflare-operator reconciliation core:
credential resolution (`CloudflareClientProvider::resolve_token`,
`fetch_secret`), the client cache (`get_client_from_cache`), and the
Zone / DNSRecord reconcile functions, together with theorems about them.

External collaborators (the Kubernetes API server, the Cloudflare REST
client, the standard library's UTF-8 and IP-address parsers, and the
kube-runtime finalizer helper) are modelled as explicit parameters or,
where the spec is the only source, as definitions marked
`Modelled from the spec`.
-/

namespace CFOp

/-- Embeds `k8s_openapi::api::core::v1::SecretKeySelector` as used by the
operator: the name of a secret object plus a key into its data map. -/
structure SecretKeySelector where
  name : String
  key : String
deriving DecidableEq, Repr

/-- Embeds `k8s_openapi::api::core::v1::LocalObjectReference`. -/
structure LocalObjectReference where
  name : String
deriving DecidableEq, Repr

/-- Embeds the `ProviderError` enum of `src/cloudflare/mod.rs`, variant for
variant.  Note: it has no "reference cycle" / "chain too deep" variant. -/
inductive ProviderError where
  | SecretNotFound (name : String)
  | ZoneNotFound (name : String)
  | AccountNotFound (name : String)
  | SecretKeyMissing (key : String)
  | TokenEncoding
  | ClientCreation (msg : String)
  | K8sError (msg : String)
deriving DecidableEq, Repr

/-- A Kubernetes `Secret` object as the operator reads it: an optional data
map from keys to byte strings.  Bytes are modelled as `List Nat`. -/
structure KSecret where
  data : Option (List (String × List Nat))
deriving DecidableEq, Repr

/-- Association-list lookup, modelling `HashMap::get` / `BTreeMap::get` on
the maps the operator reads and keeps. -/
def assocLookup (k : String) : List (String × α) → Option α
  | [] => none
  | (k2, v) :: rest => if k2 = k then some v else assocLookup k rest

/-- Embeds `ZoneSpec` of `src/zone/crd.rs`: optional account reference and
optional direct secret reference. -/
structure ZoneSpec where
  accountRef : Option LocalObjectReference
  secretRef : Option SecretKeySelector
deriving DecidableEq, Repr

/-- Embeds `ZoneStatus` of `src/zone/crd.rs`. -/
structure ZoneStatus where
  ready : Bool
  id : Option String
  error : Option String
deriving DecidableEq, Repr

/-- A Zone custom resource (metadata name + spec + status). -/
structure Zone where
  name : String
  spec : ZoneSpec
  status : Option ZoneStatus
deriving DecidableEq, Repr

/-- Embeds `AccountSpec` of `src/account/crd.rs`. -/
structure AccountSpec where
  id : String
  secretRef : Option SecretKeySelector
deriving DecidableEq, Repr

/-- Embeds `AccountStatus` of `src/account/crd.rs`. -/
structure AccountStatus where
  ready : Bool
  tokenId : Option String
  error : Option String
deriving DecidableEq, Repr

/-- An Account custom resource. -/
structure Account where
  name : String
  spec : AccountSpec
  status : Option AccountStatus
deriving DecidableEq, Repr

/-- The capability set of the `CloudflareResource` trait: each resource
exposes an optional secret reference, zone reference and account
reference (trait defaults are `None`). -/
structure ResourceView where
  secretRef : Option SecretKeySelector
  zoneRef : Option LocalObjectReference
  accountRef : Option LocalObjectReference
deriving DecidableEq, Repr

/-- The `impl CloudflareResource for Zone` of `src/zone/crd.rs`: it
overrides `secret_ref` and `account_ref` only, so `zone_ref` keeps the
trait default `None`. -/
def Zone.view (z : Zone) : ResourceView :=
  { secretRef := z.spec.secretRef, zoneRef := none, accountRef := z.spec.accountRef }

/-- The `impl CloudflareResource for Account` of `src/account/crd.rs`: it
overrides `secret_ref` only; `zone_ref` and `account_ref` keep the trait
default `None`. -/
def Account.view (a : Account) : ResourceView :=
  { secretRef := a.spec.secretRef, zoneRef := none, accountRef := none }

/-- The cluster contents visible to the provider through the Kubernetes
API, namespaced: `Api::namespaced(client, ns).get(name)` is modelled by
these partial maps.  `utf8Decode` stands for `String::from_utf8` of the
Rust standard library (an external collaborator): `some s` when the bytes
are valid UTF-8 decoding to `s`, `none` otherwise. -/
structure KubeEnv where
  secrets : String → String → Option KSecret
  zones : String → String → Option Zone
  accounts : String → String → Option Account
  utf8Decode : List Nat → Option String

/-- Embeds `CloudflareClientProvider::fetch_secret` of
`src/cloudflare/mod.rs`: look the secret object up by name in the given
namespace (absence maps to `SecretNotFound`); if it has a data map holding
the key, decode the bytes as UTF-8 (failure maps to `TokenEncoding`);
otherwise — key absent, or no data map at all — fail with
`SecretKeyMissing` carrying the key. -/
def fetchSecret (env : KubeEnv) (secretRef : SecretKeySelector) (ns : String) :
    Except ProviderError String :=
  match env.secrets ns secretRef.name with
  | none => .error (.SecretNotFound secretRef.name)
  | some secret =>
    match secret.data with
    | some data =>
      match assocLookup secretRef.key data with
      | some byteToken =>
        match env.utf8Decode byteToken with
        | some s => .ok s
        | none => .error .TokenEncoding
      | none => .error (.SecretKeyMissing secretRef.key)
    | none => .error (.SecretKeyMissing secretRef.key)

/-- Embeds `CloudflareClientProvider::resolve_token` of
`src/cloudflare/mod.rs`, with an explicit fuel counter standing for the
call stack (`none` = the recursion would have gone deeper than `fuel`
calls).  The branch structure mirrors the source line for line:
1. a direct secret reference is fetched and returned;
2. a zone reference loads the referenced `Zone` (absence maps to
   `ZoneNotFound`) and recurses on it — at type `Zone`, whose view has
   `zoneRef = none`;
3. the third branch — the one whose body loads an `Account` and maps
   absence to `AccountNotFound` — re-checks `resource.zone_ref()` rather
   than `resource.account_ref()`, exactly as the source does, so it can
   never fire (branch 2 already consumed a present zone reference);
4. otherwise the provider's `default_token` is returned. -/
def resolveTokenFuel (env : KubeEnv) (defaultToken : String) :
    Nat → ResourceView → String → Option (Except ProviderError String)
  | 0, _, _ => none
  | fuel + 1, resource, ns =>
    match resource.secretRef with
    | some sRef => some (fetchSecret env sRef ns)
    | none =>
      match resource.zoneRef with
      | some zRef =>
        match env.zones ns zRef.name with
        | none => some (.error (.ZoneNotFound zRef.name))
        | some zone => resolveTokenFuel env defaultToken fuel zone.view ns
      | none =>
        match resource.zoneRef with
        | some aRef =>
          match env.accounts ns aRef.name with
          | none => some (.error (.AccountNotFound aRef.name))
          | some account => resolveTokenFuel env defaultToken fuel account.view ns
        | none => some (.ok defaultToken)

/-- The resolution the provider actually performs: fuel 2 always suffices
(proved below), so this is the total function computed by
`resolve_token`. -/
def resolveToken (env : KubeEnv) (defaultToken : String)
    (resource : ResourceView) (ns : String) : Option (Except ProviderError String) :=
  resolveTokenFuel env defaultToken 2 resource ns

/-! ## The client cache (`get_client_from_cache`) -/

/-- The cache state behind the provider's mutex: the `HashMap<String,
Arc<CloudflareClient>>` is modelled as an association list from token to a
client identity (a `Nat` standing for the `Arc` allocation: two handles
are the same shared instance iff their identities are equal), together
with the next fresh identity. -/
structure CacheState where
  map : List (String × Nat)
  nextId : Nat
deriving DecidableEq, Repr

/-- Embeds `CloudflareClientProvider::get_client_from_cache` of
`src/cloudflare/mod.rs`.  `constructErr` stands for the external
`CloudflareClient::new`: `some msg` when construction of a client for the
token fails with message `msg`, `none` when it succeeds.  On a hit the
cached handle is returned and the state is untouched; on a miss a client
is constructed — failure is surfaced as `ClientCreation` before anything
is inserted — wrapped in a fresh `Arc`, inserted, and returned. -/
def getClientFromCache (constructErr : String → Option String)
    (s : CacheState) (token : String) : Except ProviderError Nat × CacheState :=
  match assocLookup token s.map with
  | some client => (.ok client, s)
  | none =>
    match constructErr token with
    | some e => (.error (.ClientCreation e), s)
    | none => (.ok s.nextId, ⟨(token, s.nextId) :: s.map, s.nextId + 1⟩)

/-- Invariant of every reachable cache state: all cached identities are
below `nextId` (freshness) and pairwise distinct (each was a fresh
allocation). -/
def CacheInv (s : CacheState) : Prop :=
  (∀ p ∈ s.map, p.2 < s.nextId) ∧ (s.map.map Prod.snd).Nodup

/-! ## The reconcile engines -/

/-- Embeds the `Error` enum of `src/lib.rs` (payloads flattened to
strings where the Rust payload is an error value). -/
inductive RError where
  | SerializationError (msg : String)
  | KubeError (msg : String)
  | FinalizerError (msg : String)
  | IllegalDocument
  | InvalidIpAddress (msg : String)
  | UnsupportedRecordType (recordType : String)
  | CloudflareApiError (msg : String)
deriving DecidableEq, Repr

/-- Embeds `kube::runtime::controller::Action` as the operator uses it:
requeue after a number of seconds, or await the next change. -/
inductive Action where
  | requeue (secs : Nat)
  | awaitChange
deriving DecidableEq, Repr

/-- Embeds the `DnsContent` payload built by `DNSRecord::reconcile`.  The
address types `V4`/`V6` abstract `std::net::Ipv4Addr` / `Ipv6Addr`
(external standard-library types). -/
inductive DnsContent (V4 V6 : Type) where
  | A (content : V4)
  | AAAA (content : V6)
  | CNAME (content : String)
  | MX (content : String) (priority : Nat)
  | TXT (content : String)
deriving DecidableEq, Repr

/-- Embeds `CreateDnsRecordParams` as filled in by `DNSRecord::reconcile`. -/
structure CreateDnsRecordParams (V4 V6 : Type) where
  ttl : Option Nat
  priority : Option Nat
  proxied : Option Bool
  name : String
  content : DnsContent V4 V6
deriving DecidableEq, Repr

/-- The spec fields of a DNSRecord that `DNSRecord::reconcile` of
`src/dns_record/reconcile.rs` reads: metadata name plus
`name/record_type/content/ttl/priority/proxied` and the zone identifier
passed to the create call. -/
structure DNSRecordRes where
  name : String
  zoneId : String
  recordName : String
  recordType : String
  content : String
  ttl : Option Nat
  priority : Option Nat
  proxied : Option Bool
deriving DecidableEq, Repr

/-- Embeds `DNSRecordStatus` of `src/dns_record/crd.rs`: `ready` and an
optional record id — there is no error field. -/
structure DNSRecordStatus where
  ready : Bool
  recordId : Option String
deriving DecidableEq, Repr

/-- Everything one DNSRecord Apply pass observably does: its returned
`Result<Action>`, the create-dns-record calls issued (zone id and
params), and the status patches successfully applied. -/
structure DnsOutcome (V4 V6 : Type) where
  result : Except RError Action
  createCalls : List (String × CreateDnsRecordParams V4 V6)
  statusPatches : List DNSRecordStatus
deriving Repr

/-- The external collaborators of one DNSRecord Apply pass:
`parseV4`/`parseV6` stand for `str::parse::<Ipv4Addr>` /
`str::parse::<Ipv6Addr>` of the Rust standard library (`none` = parse
error); `createResult` is the Cloudflare create-dns-record response
(`some id` on success, `none` = API error); `patchOk` is whether the
status patch to the API server succeeds. -/
structure DnsWorld (V4 V6 : Type) where
  parseV4 : String → Option V4
  parseV6 : String → Option V6
  createResult : Option String
  patchOk : Bool

/-- Embeds `DNSRecord::reconcile` (the Apply arm) of
`src/dns_record/reconcile.rs`: the `"illegal"` name check, the
record-type match building `DnsContent` — `A`/`AAAA` parse the content as
an address and fail the reconcile on parse error, `MX` defaults the
priority to 10, any type outside the five fails with
`UnsupportedRecordType` — then the external create call, then a
force-applied status patch `ready = true` with the returned id, then a
5-minute requeue. -/
def dnsReconcile (w : DnsWorld V4 V6) (doc : DNSRecordRes) : DnsOutcome V4 V6 :=
  if doc.name = "illegal" then
    { result := .error .IllegalDocument, createCalls := [], statusPatches := [] }
  else
    let contentResult : Except RError (DnsContent V4 V6) :=
      if doc.recordType = "A" then
        match w.parseV4 doc.content with
        | some addr => .ok (.A addr)
        | none => .error (.InvalidIpAddress doc.content)
      else if doc.recordType = "AAAA" then
        match w.parseV6 doc.content with
        | some addr => .ok (.AAAA addr)
        | none => .error (.InvalidIpAddress doc.content)
      else if doc.recordType = "CNAME" then .ok (.CNAME doc.content)
      else if doc.recordType = "MX" then .ok (.MX doc.content (doc.priority.getD 10))
      else if doc.recordType = "TXT" then .ok (.TXT doc.content)
      else .error (.UnsupportedRecordType doc.recordType)
    match contentResult with
    | .error e => { result := .error e, createCalls := [], statusPatches := [] }
    | .ok content =>
      let params : CreateDnsRecordParams V4 V6 :=
        { ttl := doc.ttl, priority := doc.priority, proxied := doc.proxied,
          name := doc.recordName, content := content }
      match w.createResult with
      | none =>
        { result := .error (.CloudflareApiError "create_dns_record failed"),
          createCalls := [(doc.zoneId, params)], statusPatches := [] }
      | some id =>
        if w.patchOk then
          { result := .ok (.requeue (5 * 60)),
            createCalls := [(doc.zoneId, params)],
            statusPatches := [{ ready := true, recordId := some id }] }
        else
          { result := .error (.KubeError "patch_status failed"),
            createCalls := [(doc.zoneId, params)], statusPatches := [] }

/-- Embeds `error_policy` of `src/dns_record/reconcile.rs` and (the
identically-behaving) `error_policy` of `src/zone/reconcile.rs`: log,
bump the failure metric, and requeue after 5 minutes — for every error,
with no status patch. -/
def errorPolicy (_error : RError) : Action :=
  .requeue (5 * 60)

/-- The spec fields of a Zone that `Zone::reconcile` of
`src/zone/reconcile.rs` reads: the metadata name and `spec.account`;
`accountRef` carries the reference of `src/zone/crd.rs`, which the
reconcile never reads. -/
structure ZoneRes where
  name : String
  account : String
  accountRef : Option LocalObjectReference
deriving DecidableEq, Repr

/-- The create-zone parameters built by `Zone::reconcile`. -/
structure CreateZoneParams where
  name : String
  account : String
deriving DecidableEq, Repr

/-- Everything one Zone Apply pass observably does. -/
structure ZoneOutcome where
  result : Except RError Action
  createCalls : List CreateZoneParams
  statusPatches : List ZoneStatus
  accountReads : Nat
deriving Repr

/-- Embeds `Zone::reconcile` (the Apply arm) of `src/zone/reconcile.rs`:
after the `"illegal"` name check it builds the create-zone params and
force-applies a status patch whose `ready` is whether the external create
call succeeded (`createOk`), the other status fields staying empty; a
failing patch (`patchOk = false`) errors with `KubeError`, a successful
pass requeues after 5 minutes.  It performs no read of any Account object
(`accountReads = 0` on every path). -/
def zoneReconcile (createOk : Bool) (patchOk : Bool) (doc : ZoneRes) : ZoneOutcome :=
  if doc.name = "illegal" then
    { result := .error .IllegalDocument, createCalls := [], statusPatches := [],
      accountReads := 0 }
  else
    let params : CreateZoneParams := { name := doc.name, account := doc.account }
    let status : ZoneStatus := { ready := createOk, id := none, error := none }
    if patchOk then
      { result := .ok (.requeue (5 * 60)), createCalls := [params],
        statusPatches := [status], accountReads := 0 }
    else
      { result := .error (.KubeError "patch_status failed"), createCalls := [params],
        statusPatches := [], accountReads := 0 }

/-! ## Finalizer lifecycle and cleanup -/

/-- Embeds `kube::runtime::events::EventType`. -/
inductive EventType where
  | Normal
  | Warning
deriving DecidableEq, Repr

/-- Embeds the `kube::runtime::events::Event` payload the cleanup handlers
publish. -/
structure KubeEvent where
  eventType : EventType
  reason : String
  note : Option String
  action : String
deriving DecidableEq, Repr

/-- Everything one Cleanup pass observably does: its returned
`Result<Action>`, the notification events successfully published, and the
number of Cloudflare-side teardown calls issued. -/
structure CleanupOutcome where
  result : Except RError Action
  events : List KubeEvent
  cloudflareTeardownCalls : Nat
deriving Repr

/-- Embeds `DNSRecord::cleanup` of `src/dns_record/reconcile.rs` (and the
textually identical `Zone::cleanup`): publish one Normal event with
reason `DeleteRequested` and action `Deleting` — no Cloudflare-side
teardown of any kind — and return `Action::await_change()`; a failing
publish (`publishOk = false`) propagates as `KubeError`. -/
def dnsCleanup (publishOk : Bool) (docName : String) : CleanupOutcome :=
  if publishOk then
    { result := .ok .awaitChange,
      events := [{ eventType := .Normal, reason := "DeleteRequested",
                   note := some ("Delete `" ++ docName ++ "`"), action := "Deleting" }],
      cloudflareTeardownCalls := 0 }
  else
    { result := .error (.KubeError "event publish failed"), events := [],
      cloudflareTeardownCalls := 0 }

/-- The object metadata the finalizer protocol inspects. -/
structure ObjectMeta where
  finalizers : List String
  deletionTimestamp : Option Nat
deriving DecidableEq, Repr

/-- The externally visible steps of one pass of the finalizer-governed
lifecycle, in execution order. -/
inductive LifecycleStep where
  | acquireFinalizer
  | runApply
  | runCleanup
  | removeFinalizer
deriving DecidableEq, Repr

/-- Modelled from the spec: the `kube::runtime::finalizer::finalizer`
helper that both reconcilers wrap their Apply/Cleanup dispatch in is an
external crate, not part of this repository's sources.  Following the
spec's protocol description: an object observed without the finalizer
acquires it before any Apply logic runs; an object with a deletion
timestamp and the finalizer present runs Cleanup, and the finalizer is
removed only after Cleanup reports success — a Cleanup error propagates
and leaves the finalizer in place.  Returns the ordered step trace, the
resulting object metadata, and the pass result. -/
def finalizerStep (finalizerName : String) (obj : ObjectMeta)
    (applyResult : Except RError Action) (cleanupResult : Except RError Action) :
    List LifecycleStep × ObjectMeta × Except RError Action :=
  match obj.deletionTimestamp with
  | none =>
    if finalizerName ∈ obj.finalizers then
      ([.runApply], obj, applyResult)
    else
      ([.acquireFinalizer, .runApply],
       { obj with finalizers := obj.finalizers ++ [finalizerName] }, applyResult)
  | some _ =>
    if finalizerName ∈ obj.finalizers then
      match cleanupResult with
      | .ok a =>
        ([.runCleanup, .removeFinalizer],
         { obj with finalizers := obj.finalizers.erase finalizerName }, .ok a)
      | .error e => ([.runCleanup], obj, .error e)
    else
      ([], obj, .ok .awaitChange)

/-! ## Theorems: credential resolution -/

/-- On a view without a zone reference (every `Zone.view` and
`Account.view` is such a view) resolution never recurses, so one unit of
fuel already decides it. -/
theorem resolveTokenFuel_of_no_zoneRef (env : KubeEnv) (d : String) (v : ResourceView)
    (hz : v.zoneRef = none) (fuel : Nat) (ns : String) :
    resolveTokenFuel env d (fuel + 1) v ns = resolveTokenFuel env d 1 v ns := by
  cases hs : v.secretRef <;> simp [resolveTokenFuel, hs, hz]

/-- Two units of fuel decide resolution for every input: the only live
recursive call is on a fetched `Zone`, whose view carries no zone
reference. -/
theorem resolveTokenFuel_stabilizes (env : KubeEnv) (d : String) (v : ResourceView)
    (ns : String) (fuel : Nat) :
    resolveTokenFuel env d (fuel + 2) v ns = resolveTokenFuel env d 2 v ns := by
  show resolveTokenFuel env d ((fuel + 1) + 1) v ns = resolveTokenFuel env d (1 + 1) v ns
  cases hs : v.secretRef with
  | some s => simp [resolveTokenFuel, hs]
  | none =>
    cases hzr : v.zoneRef with
    | none => simp [resolveTokenFuel, hs, hzr]
    | some zRef =>
      simp only [resolveTokenFuel, hs, hzr]
      cases hz : env.zones ns zRef.name with
      | none => rfl
      | some zone => exact resolveTokenFuel_of_no_zoneRef env d zone.view rfl fuel ns

/-- Resolution with two units of fuel never runs out of fuel. -/
theorem resolveTokenFuel_two_isSome (env : KubeEnv) (d : String) (v : ResourceView)
    (ns : String) : (resolveTokenFuel env d 2 v ns).isSome := by
  show (resolveTokenFuel env d (1 + 1) v ns).isSome
  cases hs : v.secretRef with
  | some s => simp [resolveTokenFuel, hs]
  | none =>
    cases hzr : v.zoneRef with
    | none => simp [resolveTokenFuel, hs, hzr]
    | some zRef =>
      simp only [resolveTokenFuel, hs, hzr]
      cases hz : env.zones ns zRef.name with
      | none => rfl
      | some zone =>
        cases hs2 : zone.view.secretRef <;>
          simp [resolveTokenFuel, hs2, show zone.view.zoneRef = none from rfl]

/-- C4: credential resolution terminates on every input, well-formed or
cyclic: the recursion of `resolve_token` never needs more than 2 nested
calls (below the claimed bound of 4) — any fuel of at least 2 computes
the same result, and that result is never a fuel exhaustion.  The clause
about inputs exceeding the bound is vacuous: no input reaches depth 3,
because the only recursive branch loads a `Zone`, whose
`CloudflareResource` view has no zone reference, and the account branch
re-checks the zone reference so it never fires. -/
theorem resolve_token_terminates_C4 (env : KubeEnv) (d : String) (v : ResourceView)
    (ns : String) (fuel : Nat) (hfuel : 2 ≤ fuel) :
    resolveTokenFuel env d fuel v ns = resolveToken env d v ns ∧
      (resolveToken env d v ns).isSome := by
  obtain ⟨k, rfl⟩ : ∃ k, fuel = k + 2 := ⟨fuel - 2, by omega⟩
  exact ⟨resolveTokenFuel_stabilizes env d v ns k, resolveTokenFuel_two_isSome env d v ns⟩

/-- Example cluster for the termination witness: the resource references
zone `z`, and zone `z` even references an account named `z`, offering a
would-be cycle that resolution never follows. -/
def envC4 : KubeEnv :=
  { secrets := fun _ _ => none,
    zones := fun ns n =>
      if ns = "ns" ∧ n = "z" then
        some { name := "z", spec := { accountRef := some ⟨"z"⟩, secretRef := none },
               status := none }
      else none,
    accounts := fun _ _ => none,
    utf8Decode := fun _ => none }

/-- Witness for C4 at fuel 7 on a view pointing into `envC4`. -/
theorem resolve_token_terminates_C4_witness :
    2 ≤ 7 ∧
      (resolveTokenFuel envC4 "d" 7 ⟨none, some ⟨"z"⟩, none⟩ "ns" =
          resolveToken envC4 "d" ⟨none, some ⟨"z"⟩, none⟩ "ns" ∧
        (resolveToken envC4 "d" ⟨none, some ⟨"z"⟩, none⟩ "ns").isSome) :=
  ⟨by omega, resolve_token_terminates_C4 envC4 "d" ⟨none, some ⟨"z"⟩, none⟩ "ns" 7 (by omega)⟩

/-- The secret reference held by the example Account. -/
def secretRefC1 : SecretKeySelector := ⟨"cf-secret", "token"⟩

/-- Example Account owning a secret reference. -/
def acctC1 : Account :=
  { name := "acct", spec := { id := "cf-acct-id", secretRef := some secretRefC1 },
    status := none }

/-- Example Zone referencing `acctC1` and holding no secret of its own. -/
def zoneC1 : Zone :=
  { name := "z", spec := { accountRef := some ⟨"acct"⟩, secretRef := none }, status := none }

/-- Example cluster: the account `acct` exists and its secret decodes to
the token `"tok"`. -/
def envC1 : KubeEnv :=
  { secrets := fun ns n =>
      if ns = "default" ∧ n = "cf-secret" then some ⟨some [("token", [116, 111, 107])]⟩
      else none,
    zones := fun _ _ => none,
    accounts := fun ns n => if ns = "default" ∧ n = "acct" then some acctC1 else none,
    utf8Decode := fun bs => if bs = [116, 111, 107] then some "tok" else none }

/-- C1 (evaluation at the failing input): a Zone with no secret and no
zone reference but with an account reference to an existing Account whose
own resolution yields `"tok"` resolves to the *default* token — the
account branch of `resolve_token` re-checks `zone_ref()` instead of
`account_ref()`, so it can never fire and resolution falls through to
`default_token` even though the Account has a secret. -/
theorem resolve_token_account_ref_dead_C1 :
    zoneC1.view.secretRef = none ∧ zoneC1.view.zoneRef = none ∧
      zoneC1.view.accountRef = some ⟨"acct"⟩ ∧
      envC1.accounts "default" "acct" = some acctC1 ∧
      resolveToken envC1 "default-token" acctC1.view "default" = some (.ok "tok") ∧
      resolveToken envC1 "default-token" zoneC1.view "default" =
        some (.ok "default-token") ∧
      "tok" ≠ "default-token" :=
  ⟨rfl, rfl, rfl, rfl, rfl, rfl, by decide⟩

/-- C6: `fetch_secret` returns exactly the UTF-8 decoding of the byte
value stored at the referenced key of the named secret, and fails with
`SecretNotFound` (carrying the secret name) when the secret object is
absent, with `SecretKeyMissing` (carrying the key) when the key is absent
from the data map, and with `TokenEncoding` when the bytes are not valid
UTF-8. -/
theorem fetch_secret_spec_C6 (env : KubeEnv) (ns : String) (r : SecretKeySelector) :
    (env.secrets ns r.name = none →
        fetchSecret env r ns = .error (.SecretNotFound r.name)) ∧
      (∀ secret data bytes s, env.secrets ns r.name = some secret →
        secret.data = some data → assocLookup r.key data = some bytes →
        env.utf8Decode bytes = some s → fetchSecret env r ns = .ok s) ∧
      (∀ secret data, env.secrets ns r.name = some secret → secret.data = some data →
        assocLookup r.key data = none →
        fetchSecret env r ns = .error (.SecretKeyMissing r.key)) ∧
      (∀ secret data bytes, env.secrets ns r.name = some secret →
        secret.data = some data → assocLookup r.key data = some bytes →
        env.utf8Decode bytes = none → fetchSecret env r ns = .error .TokenEncoding) := by
  refine ⟨?_, ?_, ?_, ?_⟩ <;> intros <;> simp_all [fetchSecret]

/-- Example cluster for the `fetch_secret` witnesses: one secret with a
decodable key and an undecodable key. -/
def envC6 : KubeEnv :=
  { secrets := fun ns n =>
      if ns = "team" ∧ n = "creds" then some ⟨some [("token", [104, 105]), ("bad", [255])]⟩
      else none,
    zones := fun _ _ => none,
    accounts := fun _ _ => none,
    utf8Decode := fun bs => if bs = [104, 105] then some "hi" else none }

/-- Witness for C6: all four behaviors at concrete inputs in `envC6`. -/
theorem fetch_secret_spec_C6_witness :
    fetchSecret envC6 ⟨"creds", "token"⟩ "team" = .ok "hi" ∧
      fetchSecret envC6 ⟨"absent", "token"⟩ "team" = .error (.SecretNotFound "absent") ∧
      fetchSecret envC6 ⟨"creds", "missing"⟩ "team" =
        .error (.SecretKeyMissing "missing") ∧
      fetchSecret envC6 ⟨"creds", "bad"⟩ "team" = .error .TokenEncoding :=
  ⟨(fetch_secret_spec_C6 envC6 "team" ⟨"creds", "token"⟩).2.1 _ _ _ _ rfl rfl rfl rfl,
   (fetch_secret_spec_C6 envC6 "team" ⟨"absent", "token"⟩).1 rfl,
   (fetch_secret_spec_C6 envC6 "team" ⟨"creds", "missing"⟩).2.2.1 _ _ rfl rfl rfl,
   (fetch_secret_spec_C6 envC6 "team" ⟨"creds", "bad"⟩).2.2.2 _ _ _ rfl rfl rfl rfl⟩

/-- C10: a secret that exists but has no data map at all makes
`fetch_secret` fail with `SecretKeyMissing` naming the requested key —
the same error as when the key is merely absent from a populated data
map — and it never returns a token in that case (the embedding is a total
function, so no panic is possible). -/
theorem fetch_secret_no_data_C10 (env : KubeEnv) (ns : String) (r : SecretKeySelector)
    (secret : KSecret) (hget : env.secrets ns r.name = some secret) :
    (secret.data = none → fetchSecret env r ns = .error (.SecretKeyMissing r.key)) ∧
      (∀ data, secret.data = some data → assocLookup r.key data = none →
        fetchSecret env r ns = .error (.SecretKeyMissing r.key)) ∧
      (secret.data = none → ∀ t, fetchSecret env r ns ≠ .ok t) := by
  refine ⟨?_, ?_, ?_⟩ <;> intros <;> simp_all [fetchSecret]

/-- Example cluster holding a secret whose `data` is `None`. -/
def envC10 : KubeEnv :=
  { secrets := fun ns n => if ns = "team" ∧ n = "empty" then some ⟨none⟩ else none,
    zones := fun _ _ => none,
    accounts := fun _ _ => none,
    utf8Decode := fun _ => none }

/-- Witness for C10 on the data-less secret `empty`. -/
theorem fetch_secret_no_data_C10_witness :
    fetchSecret envC10 ⟨"empty", "token"⟩ "team" =
        .error (.SecretKeyMissing "token") ∧
      fetchSecret envC10 ⟨"empty", "token"⟩ "team" ≠ .ok "tok" :=
  ⟨(fetch_secret_no_data_C10 envC10 "team" ⟨"empty", "token"⟩ ⟨none⟩ rfl).1 rfl,
   (fetch_secret_no_data_C10 envC10 "team" ⟨"empty", "token"⟩ ⟨none⟩ rfl).2.2 rfl "tok"⟩

/-! ## Theorems: the client cache -/

/-- A successful association-list lookup exhibits a member entry. -/
theorem assocLookup_mem {α : Type} {l : List (String × α)} {k : String} {v : α}
    (h : assocLookup k l = some v) : (k, v) ∈ l := by
  induction l with
  | nil => exact absurd h (by simp [assocLookup])
  | cons p rest ih =>
    rcases p with ⟨k2, v2⟩
    rw [assocLookup] at h
    by_cases hk : k2 = k
    · rw [if_pos hk] at h
      injection h with h
      subst hk h
      exact List.mem_cons_self _ _
    · rw [if_neg hk] at h
      exact List.mem_cons_of_mem _ (ih h)

/-- When the cached identities are pairwise distinct, an identity
determines its token. -/
theorem snd_nodup_key_eq {l : List (String × Nat)} (hnd : (l.map Prod.snd).Nodup)
    {k1 k2 : String} {v : Nat} (h1 : (k1, v) ∈ l) (h2 : (k2, v) ∈ l) : k1 = k2 := by
  induction l with
  | nil => simp at h1
  | cons p rest ih =>
    rw [List.map_cons, List.nodup_cons] at hnd
    rcases List.mem_cons.mp h1 with h1 | h1 <;> rcases List.mem_cons.mp h2 with h2 | h2
    · rw [← h2] at h1
      exact congrArg Prod.fst h1
    · rw [← h1] at hnd
      exact absurd (List.mem_map_of_mem Prod.snd h2) hnd.1
    · rw [← h2] at hnd
      exact absurd (List.mem_map_of_mem Prod.snd h1) hnd.1
    · exact ih hnd.2 h1 h2

/-- `get_client_from_cache` preserves the cache invariant. -/
theorem cacheInv_preserved (cErr : String → Option String) (s : CacheState) (t : String)
    (hInv : CacheInv s) : CacheInv (getClientFromCache cErr s t).2 := by
  cases hl : assocLookup t s.map with
  | some id => simpa [getClientFromCache, hl] using hInv
  | none =>
    cases hc : cErr t with
    | some e => simpa [getClientFromCache, hl, hc] using hInv
    | none =>
      simp only [getClientFromCache, hl, hc]
      constructor
      · intro p hp
        rcases List.mem_cons.mp hp with rfl | hp
        · exact Nat.lt_succ_self _
        · exact Nat.lt_succ_of_lt (hInv.1 p hp)
      · rw [List.map_cons, List.nodup_cons]
        refine ⟨?_, hInv.2⟩
        intro hmem
        obtain ⟨p, hp, hps⟩ := List.mem_map.mp hmem
        exact absurd (hps ▸ hInv.1 p hp) (lt_irrefl _)

/-- A handle returned with `Ok` is recorded in the resulting cache under
its token. -/
theorem getClientFromCache_ok_mem (cErr : String → Option String) (s : CacheState)
    (t : String) {id : Nat} (h : (getClientFromCache cErr s t).1 = .ok id) :
    (t, id) ∈ (getClientFromCache cErr s t).2.map := by
  cases hl : assocLookup t s.map with
  | some id0 =>
    simp only [getClientFromCache, hl] at h ⊢
    injection h with h
    exact h ▸ assocLookup_mem hl
  | none =>
    cases hc : cErr t with
    | some e => simp [getClientFromCache, hl, hc] at h
    | none =>
      simp only [getClientFromCache, hl, hc] at h ⊢
      injection h with h
      exact h ▸ List.mem_cons_self _ _

/-- A handle returned with `Ok` can be looked up in the resulting cache. -/
theorem getClientFromCache_ok_lookup (cErr : String → Option String) (s : CacheState)
    (t : String) {id : Nat} (h : (getClientFromCache cErr s t).1 = .ok id) :
    assocLookup t (getClientFromCache cErr s t).2.map = some id := by
  cases hl : assocLookup t s.map with
  | some id0 =>
    simp only [getClientFromCache, hl] at h ⊢
    injection h with h
    rw [← h]
  | none =>
    cases hc : cErr t with
    | some e => simp [getClientFromCache, hl, hc] at h
    | none =>
      simp only [getClientFromCache, hl, hc] at h ⊢
      injection h with h
      simp [assocLookup, h]

/-- A lookup hit returns the cached handle and leaves the state
untouched. -/
theorem getClientFromCache_hit (cErr : String → Option String) (s : CacheState)
    (t : String) (id : Nat) (hm : assocLookup t s.map = some id) :
    getClientFromCache cErr s t = (.ok id, s) := by
  simp [getClientFromCache, hm]

/-- On an invariant-respecting state, a call for a token distinct from
`t` never returns an identity already cached under `t`. -/
theorem cache_distinct_ids (cErr : String → Option String) (s1 : CacheState)
    (hInv1 : CacheInv s1) {t t2 : String} {id1 id2 : Nat} (hne : t ≠ t2)
    (hm1 : (t, id1) ∈ s1.map)
    (h2 : (getClientFromCache cErr s1 t2).1 = .ok id2) : id1 ≠ id2 := by
  cases hl2 : assocLookup t2 s1.map with
  | some idX =>
    simp only [getClientFromCache, hl2] at h2
    injection h2 with h2
    subst h2
    intro heq
    subst heq
    exact hne (snd_nodup_key_eq hInv1.2 hm1 (assocLookup_mem hl2))
  | none =>
    cases hc2 : cErr t2 with
    | some e => simp [getClientFromCache, hl2, hc2] at h2
    | none =>
      simp only [getClientFromCache, hl2, hc2] at h2
      injection h2 with h2
      have := hInv1.1 _ hm1
      omega

/-- C7: on every reachable cache state, a second `get_client_from_cache`
call with the same token returns the very same shared instance and leaves
the cache untouched; calls with two distinct tokens return distinct
instances; and a client is constructed exactly on first use (a miss with
successful construction returns the fresh handle and records it). -/
theorem client_cache_identity_C7 (cErr : String → Option String) (s : CacheState)
    (t t2 : String) (hInv : CacheInv s) :
    (∀ id, (getClientFromCache cErr s t).1 = .ok id →
        getClientFromCache cErr (getClientFromCache cErr s t).2 t =
          (.ok id, (getClientFromCache cErr s t).2)) ∧
      (t ≠ t2 → ∀ id1 id2, (getClientFromCache cErr s t).1 = .ok id1 →
        (getClientFromCache cErr (getClientFromCache cErr s t).2 t2).1 = .ok id2 →
        id1 ≠ id2) ∧
      (assocLookup t s.map = none → cErr t = none →
        (getClientFromCache cErr s t).1 = .ok s.nextId ∧
          (getClientFromCache cErr s t).2.map = (t, s.nextId) :: s.map) := by
  refine ⟨?_, ?_, ?_⟩
  · intro id h
    exact getClientFromCache_hit cErr _ t id (getClientFromCache_ok_lookup cErr s t h)
  · intro hne id1 id2 h1 h2
    exact cache_distinct_ids cErr (getClientFromCache cErr s t).2
      (cacheInv_preserved cErr s t hInv) hne (getClientFromCache_ok_mem cErr s t h1) h2
  · intro hmiss hok
    simp [getClientFromCache, hmiss, hok]

/-- Witness for C7: from a reachable one-entry cache, a repeated call for
token `a` returns the cached handle 0 unchanged, and a call for the
distinct token `b` returns a different handle. -/
theorem client_cache_identity_C7_witness :
    getClientFromCache (fun _ => none) ⟨[("a", 0)], 1⟩ "a" =
        (.ok 0, ⟨[("a", 0)], 1⟩) ∧ (0 : Nat) ≠ 1 := by
  have hInv : CacheInv ⟨[("a", 0)], 1⟩ := by
    constructor
    · intro p hp
      rcases List.mem_cons.mp hp with rfl | hp
      · exact Nat.lt_succ_self 0
      · simp at hp
    · simp
  have h := client_cache_identity_C7 (fun _ => none) ⟨[("a", 0)], 1⟩ "a" "b" hInv
  refine ⟨?_, h.2.1 (by decide) 0 1 rfl rfl⟩
  have h1 := h.1 0 rfl
  simpa using h1

/-- C8: a construction failure is surfaced as `ClientCreation` and the
cache mapping is left unchanged — the failure is not cached, so a
subsequent call with the same token misses again and re-attempts
construction instead of returning a stale error or a broken handle. -/
theorem client_creation_failure_not_cached_C8 (cErr : String → Option String)
    (s : CacheState) (t : String) (e : String) (hmiss : assocLookup t s.map = none)
    (hfail : cErr t = some e) :
    getClientFromCache cErr s t = (.error (.ClientCreation e), s) ∧
      assocLookup t (getClientFromCache cErr s t).2.map = none ∧
      (getClientFromCache cErr (getClientFromCache cErr s t).2 t).1 =
        .error (.ClientCreation e) := by
  simp [getClientFromCache, hmiss, hfail]

/-- Witness for C8: construction for token `a` fails on the empty cache. -/
theorem client_creation_failure_not_cached_C8_witness :
    getClientFromCache (fun _ => some "boom") ⟨[], 0⟩ "a" =
        (.error (.ClientCreation "boom"), ⟨[], 0⟩) ∧
      assocLookup "a" (getClientFromCache (fun _ => some "boom") ⟨[], 0⟩ "a").2.map =
        none ∧
      (getClientFromCache (fun _ => some "boom")
          (getClientFromCache (fun _ => some "boom") ⟨[], 0⟩ "a").2 "a").1 =
        .error (.ClientCreation "boom") :=
  client_creation_failure_not_cached_C8 (fun _ => some "boom") ⟨[], 0⟩ "a" "boom" rfl rfl

/-! ## Theorems: the reconcile engines -/

/-- Example Account whose status is not ready. -/
def acctC2 : Account :=
  { name := "acct", spec := { id := "cf-acct-id", secretRef := none },
    status := some { ready := false, tokenId := none, error := none } }

/-- Example Zone referencing `acctC2`. -/
def zoneResC2 : ZoneRes :=
  { name := "z", account := "cf-acct-id", accountRef := some ⟨"acct"⟩ }

/-- C2 (counterexample): with the referenced Account present but
`ready = false`, `Zone::reconcile` still issues exactly one create-zone
call, still requeues after 300 seconds (not 60), and writes a status
without any error string — the reconcile never reads the Account at
all. -/
theorem zone_reconcile_gate_C2_counterexample :
    acctC2.status = some { ready := false, tokenId := none, error := none } ∧
      (zoneReconcile true true zoneResC2).createCalls.length = 1 ∧
      (zoneReconcile true true zoneResC2).result = .ok (.requeue 300) ∧
      (zoneReconcile true true zoneResC2).statusPatches =
        [{ ready := true, id := none, error := none }] ∧
      ¬((zoneReconcile true true zoneResC2).createCalls = [] ∧
        (zoneReconcile true true zoneResC2).result = .ok (.requeue 60)) := by
  refine ⟨rfl, rfl, rfl, rfl, ?_⟩
  rintro ⟨h, -⟩
  rw [show (zoneReconcile true true zoneResC2).createCalls =
      [{ name := "z", account := "cf-acct-id" }] from rfl] at h
  exact List.cons_ne_nil _ _ h

/-- C2 (amended): `Zone::reconcile` never loads the referenced Account:
for every Zone not named `"illegal"` it performs zero Account reads,
issues exactly one create-zone call, and — when the status patch goes
through — writes `ready = createOk` with no error string and requeues
after 300 seconds, whatever the Account's status is. -/
theorem zone_reconcile_no_dependency_gate_C2 (createOk patchOk : Bool) (doc : ZoneRes)
    (hname : doc.name ≠ "illegal") :
    (zoneReconcile createOk patchOk doc).accountReads = 0 ∧
      (zoneReconcile createOk patchOk doc).createCalls =
        [{ name := doc.name, account := doc.account }] ∧
      (patchOk = true →
        (zoneReconcile createOk patchOk doc).result = .ok (.requeue (5 * 60)) ∧
          (zoneReconcile createOk patchOk doc).statusPatches =
            [{ ready := createOk, id := none, error := none }]) ∧
      (patchOk = false →
        (zoneReconcile createOk patchOk doc).result =
            .error (.KubeError "patch_status failed") ∧
          (zoneReconcile createOk patchOk doc).statusPatches = []) := by
  cases patchOk <;> simp [zoneReconcile, hname]

/-- Witness for the amended C2 on a concrete Zone named `z2`. -/
theorem zone_reconcile_no_dependency_gate_C2_witness :
    (zoneReconcile true true ⟨"z2", "acc", none⟩).accountReads = 0 ∧
      (zoneReconcile true true ⟨"z2", "acc", none⟩).createCalls = [⟨"z2", "acc"⟩] ∧
      (zoneReconcile true true ⟨"z2", "acc", none⟩).result = .ok (.requeue (5 * 60)) :=
  have h := zone_reconcile_no_dependency_gate_C2 true true ⟨"z2", "acc", none⟩ (by decide)
  ⟨h.1, h.2.1, (h.2.2.1 rfl).1⟩

/-- A DNSRecord Apply pass either wrote no status patch or fully
succeeded (create call ok, patch ok, 5-minute requeue). -/
theorem dnsReconcile_patches_or_ok {V4 V6 : Type} (w : DnsWorld V4 V6)
    (doc : DNSRecordRes) :
    (dnsReconcile w doc).statusPatches = [] ∨
      (dnsReconcile w doc).result = .ok (.requeue (5 * 60)) := by
  simp only [dnsReconcile]
  split
  · exact .inl rfl
  · split
    · exact .inl rfl
    · split
      · exact .inl rfl
      · split
        · exact .inr rfl
        · exact .inl rfl

/-- A Zone Apply pass either wrote no status patch or fully succeeded. -/
theorem zoneReconcile_patches_or_ok (createOk patchOk : Bool) (doc : ZoneRes) :
    (zoneReconcile createOk patchOk doc).statusPatches = [] ∨
      (zoneReconcile createOk patchOk doc).result = .ok (.requeue (5 * 60)) := by
  simp only [zoneReconcile]
  split
  · exact .inl rfl
  · split
    · exact .inr rfl
    · exact .inl rfl

/-- C3 (amended): every Apply failure surfaces but the two engines differ.
For a DNSRecord Apply, a failing lookup/validation step or a failing
external create call propagates as an error to the reconcile boundary —
in particular, whenever the create call was issued and the external call
failed, the pass result is the `CloudflareApiError` — where `error_policy`
turns every error into a bounded 5-minute requeue (it is total, so the
watch loop never crashes); a failing DNSRecord Apply writes no status
patch at all (there is no error field in its status).  For a Zone Apply,
an external create failure does *not* propagate as an error: it is
absorbed into a force-applied `ready=false` status patch with no error
string and the Apply returns `Ok` with the ordinary 300-second requeue;
only a failing status patch propagates (as `KubeError`), and an erroring
Zone Apply writes no status patch. -/
theorem reconcile_error_policy_C3 {V4 V6 : Type} (w : DnsWorld V4 V6)
    (doc : DNSRecordRes) (zdoc : ZoneRes) (hzname : zdoc.name ≠ "illegal") :
    (∀ e : RError, errorPolicy e = .requeue (5 * 60)) ∧
      (∀ e, (dnsReconcile w doc).result = .error e →
        (dnsReconcile w doc).statusPatches = []) ∧
      (w.createResult = none → (dnsReconcile w doc).createCalls ≠ [] →
        (dnsReconcile w doc).result =
          .error (.CloudflareApiError "create_dns_record failed")) ∧
      ((zoneReconcile false true zdoc).result = .ok (.requeue (5 * 60)) ∧
        (zoneReconcile false true zdoc).statusPatches =
          [{ ready := false, id := none, error := none }]) ∧
      (∀ e createOk patchOk, (zoneReconcile createOk patchOk zdoc).result = .error e →
        (zoneReconcile createOk patchOk zdoc).statusPatches = []) := by
  refine ⟨fun _ => rfl, ?_, ?_, ?_, ?_⟩
  · intro e he
    rcases dnsReconcile_patches_or_ok w doc with h | h
    · exact h
    · rw [he] at h
      exact Except.noConfusion h
  · intro hc hcalls
    by_cases hn : doc.name = "illegal"
    · refine absurd ?_ hcalls
      simp [dnsReconcile, hn]
    · revert hcalls
      simp only [dnsReconcile, hc]
      rw [if_neg hn]
      split
      · intro hcalls
        exact absurd rfl hcalls
      · intro _
        rfl
  · constructor <;> simp [zoneReconcile, hzname]
  · intro e createOk patchOk he
    rcases zoneReconcile_patches_or_ok createOk patchOk zdoc with h | h
    · exact h
    · rw [he] at h
      exact Except.noConfusion h

/-- External world for the C3 examples: the external create call fails,
everything else would succeed. -/
def dnsWorldC3fail : DnsWorld Nat Nat :=
  { parseV4 := fun _ => none, parseV6 := fun _ => none, createResult := none,
    patchOk := true }

/-- Example DNSRecord with a valid TXT spec, so that only the external
create call can fail. -/
def dnsDocC3txt : DNSRecordRes :=
  { name := "r", zoneId := "zid", recordName := "www", recordType := "TXT",
    content := "hello", ttl := none, priority := none, proxied := none }

/-- C3 (counterexample): at inputs where the external create call fails,
neither engine produces the claimed `ready=false`-with-error-string
status patch.  The DNSRecord Apply issues the create (one call), fails
with `CloudflareApiError`, and writes zero status patches; the Zone Apply
writes a `ready=false` patch whose error field is `none` — no error
string — and returns `Ok (requeue 300)` rather than surfacing the
failure. -/
theorem reconcile_error_policy_C3_counterexample :
    (dnsReconcile dnsWorldC3fail dnsDocC3txt).createCalls.length = 1 ∧
      (dnsReconcile dnsWorldC3fail dnsDocC3txt).result =
        .error (.CloudflareApiError "create_dns_record failed") ∧
      (dnsReconcile dnsWorldC3fail dnsDocC3txt).statusPatches = [] ∧
      ¬(∃ p, p ∈ (dnsReconcile dnsWorldC3fail dnsDocC3txt).statusPatches ∧
          p.ready = false) ∧
      (zoneReconcile false true ⟨"z", "acc", none⟩).statusPatches =
        [{ ready := false, id := none, error := none }] ∧
      (zoneReconcile false true ⟨"z", "acc", none⟩).result = .ok (.requeue 300) := by
  refine ⟨rfl, rfl, rfl, ?_, rfl, rfl⟩
  rintro ⟨p, hp, -⟩
  rw [show (dnsReconcile dnsWorldC3fail dnsDocC3txt).statusPatches = [] from rfl] at hp
  exact List.not_mem_nil p hp

/-- Witness for the amended C3 at concrete create-failure inputs. -/
theorem reconcile_error_policy_C3_witness :
    errorPolicy .IllegalDocument = .requeue (5 * 60) ∧
      (dnsReconcile dnsWorldC3fail dnsDocC3txt).result =
        .error (.CloudflareApiError "create_dns_record failed") ∧
      (dnsReconcile dnsWorldC3fail dnsDocC3txt).statusPatches = [] ∧
      (zoneReconcile false true ⟨"zw", "acc", none⟩).statusPatches =
        [{ ready := false, id := none, error := none }] ∧
      (zoneReconcile false false ⟨"zw", "acc", none⟩).statusPatches = [] :=
  have h := reconcile_error_policy_C3 dnsWorldC3fail dnsDocC3txt ⟨"zw", "acc", none⟩
    (by decide)
  ⟨h.1 .IllegalDocument,
   h.2.2.1 rfl (by decide),
   h.2.1 (.CloudflareApiError "create_dns_record failed") rfl,
   h.2.2.2.1.2,
   h.2.2.2.2 (.KubeError "patch_status failed") false false rfl⟩

/-- C5 (amended): for DNSRecords not named `"illegal"`, Apply accepts
exactly the record types A, AAAA, CNAME, MX, TXT: any other type fails
with `UnsupportedRecordType` and issues no external create; for type A
(resp. AAAA) the content must parse as an IPv4 (resp. IPv6) literal —
a parse failure fails the reconcile with the address-parse error and
writes no external record, a parse success passes the create call exactly
the parsed literal; MX uses priority 10 when `spec.priority` is unset. -/
theorem dns_record_type_validation_C5 {V4 V6 : Type} (w : DnsWorld V4 V6)
    (doc : DNSRecordRes) (hn : doc.name ≠ "illegal") :
    (doc.recordType ∉ (["A", "AAAA", "CNAME", "MX", "TXT"] : List String) →
        (dnsReconcile w doc).result =
            .error (.UnsupportedRecordType doc.recordType) ∧
          (dnsReconcile w doc).createCalls = []) ∧
      (doc.recordType = "A" →
        (w.parseV4 doc.content = none →
            (dnsReconcile w doc).result = .error (.InvalidIpAddress doc.content) ∧
              (dnsReconcile w doc).createCalls = []) ∧
          (∀ addr, w.parseV4 doc.content = some addr →
            (dnsReconcile w doc).createCalls =
              [(doc.zoneId,
                { ttl := doc.ttl, priority := doc.priority, proxied := doc.proxied,
                  name := doc.recordName, content := .A addr })])) ∧
      (doc.recordType = "AAAA" →
        (w.parseV6 doc.content = none →
            (dnsReconcile w doc).result = .error (.InvalidIpAddress doc.content) ∧
              (dnsReconcile w doc).createCalls = []) ∧
          (∀ addr, w.parseV6 doc.content = some addr →
            (dnsReconcile w doc).createCalls =
              [(doc.zoneId,
                { ttl := doc.ttl, priority := doc.priority, proxied := doc.proxied,
                  name := doc.recordName, content := .AAAA addr })])) ∧
      (doc.recordType = "MX" →
        (dnsReconcile w doc).createCalls =
          [(doc.zoneId,
            { ttl := doc.ttl, priority := doc.priority, proxied := doc.proxied,
              name := doc.recordName,
              content := .MX doc.content (doc.priority.getD 10) })]) ∧
      (doc.recordType = "CNAME" →
        (dnsReconcile w doc).createCalls =
          [(doc.zoneId,
            { ttl := doc.ttl, priority := doc.priority, proxied := doc.proxied,
              name := doc.recordName, content := .CNAME doc.content })]) ∧
      (doc.recordType = "TXT" →
        (dnsReconcile w doc).createCalls =
          [(doc.zoneId,
            { ttl := doc.ttl, priority := doc.priority, proxied := doc.proxied,
              name := doc.recordName, content := .TXT doc.content })]) := by
  refine ⟨?_, ?_, ?_, ?_, ?_, ?_⟩
  · intro hmem
    simp only [List.mem_cons, List.mem_singleton, not_or] at hmem
    obtain ⟨hA, hAAAA, hCNAME, hMX, hTXT⟩ := hmem
    constructor <;>
      simp [dnsReconcile, hn, hA, hAAAA, hCNAME, hMX, hTXT]
  · intro hA
    constructor
    · intro hparse
      constructor <;> simp [dnsReconcile, hn, hA, hparse]
    · intro addr hparse
      rcases hc : w.createResult with - | id <;>
        cases hp : w.patchOk <;>
          simp [dnsReconcile, hn, hA, hparse, hc, hp]
  · intro hAAAA
    constructor
    · intro hparse
      constructor <;> simp [dnsReconcile, hn, hAAAA, hparse]
    · intro addr hparse
      rcases hc : w.createResult with - | id <;>
        cases hp : w.patchOk <;>
          simp [dnsReconcile, hn, hAAAA, hparse, hc, hp]
  · intro hMX
    rcases hc : w.createResult with - | id <;>
      cases hp : w.patchOk <;>
        simp [dnsReconcile, hn, hMX, hc, hp]
  · intro hCNAME
    rcases hc : w.createResult with - | id <;>
      cases hp : w.patchOk <;>
        simp [dnsReconcile, hn, hCNAME, hc, hp]
  · intro hTXT
    rcases hc : w.createResult with - | id <;>
      cases hp : w.patchOk <;>
        simp [dnsReconcile, hn, hTXT, hc, hp]

/-- Example DNSRecord named `illegal` with an unsupported record type. -/
def dnsDocIllegalC5 : DNSRecordRes :=
  { name := "illegal", zoneId := "zid", recordName := "n", recordType := "BOGUS",
    content := "c", ttl := none, priority := none, proxied := none }

/-- External world for the C5 examples: an IPv4 parser recognizing
exactly `10.0.0.1`, a rejecting IPv6 parser, successful create and
patch. -/
def dnsWorldC5 : DnsWorld Nat Nat :=
  { parseV4 := fun s => if s = "10.0.0.1" then some 167772161 else none,
    parseV6 := fun _ => none, createResult := some "rid", patchOk := true }

/-- C5 (counterexample): a record literally named `illegal` with record
type `BOGUS` fails with `IllegalDocument`, not `UnsupportedRecordType` —
the name check precedes the record-type validation, so the claim as
stated (any unrecognized type fails with `UnsupportedRecordType`) fails
at this input. -/
theorem dns_record_type_validation_C5_counterexample :
    (dnsReconcile dnsWorldC5 dnsDocIllegalC5).result = .error .IllegalDocument ∧
      (dnsReconcile dnsWorldC5 dnsDocIllegalC5).result ≠
        .error (.UnsupportedRecordType "BOGUS") := by
  refine ⟨rfl, ?_⟩
  intro h
  rw [show (dnsReconcile dnsWorldC5 dnsDocIllegalC5).result =
      .error .IllegalDocument from rfl] at h
  injection h with h
  cases h

/-- Witness for the amended C5: an A record with content `10.0.0.1`
passes the parsed literal to the create call; an SRV record fails with
`UnsupportedRecordType`. -/
theorem dns_record_type_validation_C5_witness :
    (dnsReconcile dnsWorldC5
        ⟨"r", "zid", "www", "A", "10.0.0.1", none, none, none⟩).createCalls =
        [("zid", { ttl := none, priority := none, proxied := none, name := "www",
                   content := .A 167772161 })] ∧
      (dnsReconcile dnsWorldC5
          ⟨"r", "zid", "www", "SRV", "c", none, none, none⟩).result =
        .error (.UnsupportedRecordType "SRV") :=
  have hA := dns_record_type_validation_C5 dnsWorldC5
    ⟨"r", "zid", "www", "A", "10.0.0.1", none, none, none⟩ (by decide)
  have hS := dns_record_type_validation_C5 dnsWorldC5
    ⟨"r", "zid", "www", "SRV", "c", none, none, none⟩ (by decide)
  ⟨(hA.2.1 rfl).2 167772161 rfl, (hS.1 (by decide)).1⟩

/-! ## Theorems: finalizer lifecycle -/

/-- C9: the finalizer protocol (the dispatcher modelled from the spec,
the Cleanup handler embedded from the source): an object without the
finalizer acquires it before Apply logic runs; an object with a deletion
timestamp and the finalizer present runs Cleanup, which publishes one
`DeleteRequested` event and performs zero Cloudflare-side teardown calls;
the finalizer is removed exactly when Cleanup succeeds — a failed event
publish propagates as an error and leaves the finalizer in place. -/
theorem finalizer_protocol_C9 (finName : String) (obj : ObjectMeta)
    (applyResult : Except RError Action) (publishOk : Bool) (docName : String) :
    (dnsCleanup publishOk docName).cloudflareTeardownCalls = 0 ∧
      (obj.deletionTimestamp = none → finName ∉ obj.finalizers →
        (finalizerStep finName obj applyResult (dnsCleanup publishOk docName).result).1 =
            [.acquireFinalizer, .runApply] ∧
          finName ∈
            (finalizerStep finName obj applyResult
                (dnsCleanup publishOk docName).result).2.1.finalizers) ∧
      (∀ ts, obj.deletionTimestamp = some ts → finName ∈ obj.finalizers →
        (publishOk = true →
          (dnsCleanup publishOk docName).events =
              [{ eventType := .Normal, reason := "DeleteRequested",
                 note := some ("Delete `" ++ docName ++ "`"), action := "Deleting" }] ∧
            (finalizerStep finName obj applyResult
                (dnsCleanup publishOk docName).result).1 =
              [.runCleanup, .removeFinalizer] ∧
            (finalizerStep finName obj applyResult
                (dnsCleanup publishOk docName).result).2.1.finalizers =
              obj.finalizers.erase finName) ∧
        (publishOk = false →
          (finalizerStep finName obj applyResult
              (dnsCleanup publishOk docName).result).2.2 =
              .error (.KubeError "event publish failed") ∧
            (finalizerStep finName obj applyResult
                (dnsCleanup publishOk docName).result).2.1 = obj ∧
            (finalizerStep finName obj applyResult
                (dnsCleanup publishOk docName).result).1 = [.runCleanup])) := by
  refine ⟨by cases publishOk <;> rfl, ?_, ?_⟩
  · intro hts hmem
    constructor <;> simp [finalizerStep, hts, hmem]
  · intro ts hts hmem
    constructor
    · intro hp
      subst hp
      refine ⟨rfl, ?_, ?_⟩ <;> simp [finalizerStep, dnsCleanup, hts, hmem]
    · intro hp
      subst hp
      refine ⟨?_, ?_, ?_⟩ <;> simp [finalizerStep, dnsCleanup, hts, hmem]

/-- Witness for C9: a fresh object acquires the finalizer before Apply; a
deleting object publishes `DeleteRequested` and drops the finalizer on
success, keeps it on a failed publish. -/
theorem finalizer_protocol_C9_witness :
    ((finalizerStep "f" ⟨[], none⟩ (.ok (.requeue 300)) (dnsCleanup true "d").result).1 =
        [.acquireFinalizer, .runApply] ∧
      "f" ∈ (finalizerStep "f" ⟨[], none⟩ (.ok (.requeue 300))
          (dnsCleanup true "d").result).2.1.finalizers) ∧
      (finalizerStep "f" ⟨["f"], some 1⟩ (.ok (.requeue 300))
          (dnsCleanup true "d").result).1 = [.runCleanup, .removeFinalizer] ∧
      (finalizerStep "f" ⟨["f"], some 1⟩ (.ok (.requeue 300))
          (dnsCleanup false "d").result).2.1 = (⟨["f"], some 1⟩ : ObjectMeta) :=
  have h1 := finalizer_protocol_C9 "f" ⟨[], none⟩ (.ok (.requeue 300)) true "d"
  have h2 := finalizer_protocol_C9 "f" ⟨["f"], some 1⟩ (.ok (.requeue 300)) true "d"
  have h3 := finalizer_protocol_C9 "f" ⟨["f"], some 1⟩ (.ok (.requeue 300)) false "d"
  ⟨h1.2.1 rfl (by simp), ((h2.2.2 1 rfl (by simp)).1 rfl).2.1,
   ((h3.2.2 1 rfl (by simp)).2 rfl).2.1⟩

end CFOp
